import Mathlib

/-!
Verification development for the TrackMate parcel-tracking server.

The server (src/index.js) is an Express application over a MongoDB store with
two declared collections (`parcel`, `payments`) and one collection referenced
but never declared (`trackingCollection`, treated per the specification as a
third collection `trackingUpdates`).  We embed the request handlers as pure
functions over an explicit database state.  Each handler additionally returns
the list of store operations it performed, so that "no store call is made"
claims are expressible.
-/

namespace TrackMate

/-- BSON-style values as stored in documents and query filters. -/
inductive Value where
  | vStr (s : String)
  | vNum (n : Int)
  | vOid (hex : String)
  | vDate (t : Nat)
  | vBool (b : Bool)
  deriving DecidableEq, Repr

/-- A JSON/BSON document: an association list from field names to values.
JS object field update is modelled by `Doc.setField`, field read by
`Doc.getField`. -/
abbrev Doc := List (String × Value)

/-- Read a field of a document (first binding wins, as in a JS object where
keys are unique). -/
def Doc.getField (d : Doc) (k : String) : Option Value :=
  match d with
  | [] => none
  | (k', v) :: rest => if k' = k then some v else Doc.getField rest k

/-- JS assignment `obj[k] = v`: overwrite the binding for `k` if present,
otherwise append it. -/
def Doc.setField (d : Doc) (k : String) (v : Value) : Doc :=
  match d with
  | [] => [(k, v)]
  | (k', v') :: rest =>
      if k' = k then (k, v) :: rest else (k', v') :: Doc.setField rest k v

theorem getField_setField_self (d : Doc) (k : String) (v : Value) :
    (d.setField k v).getField k = some v := by
  induction d with
  | nil => simp [Doc.setField, Doc.getField]
  | cons hd tl ih =>
      obtain ⟨k', v'⟩ := hd
      by_cases h : k' = k
      · simp [Doc.setField, Doc.getField, h]
      · simp [Doc.setField, Doc.getField, h, ih]

theorem getField_setField_ne (d : Doc) {k k' : String} (h : k' ≠ k) (v : Value) :
    (d.setField k v).getField k' = d.getField k' := by
  induction d with
  | nil => simp [Doc.setField, Doc.getField, Ne.symm h]
  | cons hd tl ih =>
      obtain ⟨k₀, v₀⟩ := hd
      by_cases h₀ : k₀ = k
      · subst h₀
        simp [Doc.setField, Doc.getField, Ne.symm h]
      · by_cases h₁ : k₀ = k'
        · subst h₁
          simp [Doc.setField, Doc.getField, h₀]
        · simp [Doc.setField, Doc.getField, h₀, h₁, ih]

/-- `ObjectId.isValid` / `new ObjectId(s)` acceptance for string input:
a 24-character hexadecimal string. -/
def isHexChar (c : Char) : Bool :=
  c.isDigit || (('a' ≤ c) && (c ≤ 'f')) || (('A' ≤ c) && (c ≤ 'F'))

/-- Validity of a MongoDB ObjectId given as a string. -/
def isValidObjectId (s : String) : Bool :=
  s.length == 24 && s.toList.all isHexChar

theorem valid_oid_ne_empty {s : String} (h : isValidObjectId s = true) : s ≠ "" := by
  intro he
  subst he
  simp [isValidObjectId] at h

/-- Filter `{_id: new ObjectId(id)}`: does document `d` have this `_id`? -/
def hasId (id : String) (d : Doc) : Bool :=
  decide (d.getField "_id" = some (Value.vOid id))

/-- `collection.findOne({_id: new ObjectId(id)})`: first matching document. -/
def findOneById (ps : List Doc) (id : String) : Option Doc :=
  ps.find? (hasId id)

/-- `collection.deleteOne({_id: new ObjectId(id)})`: remove the first matching
document; also return `deletedCount`. -/
def deleteOneById : List Doc → String → List Doc × Nat
  | [], _ => ([], 0)
  | d :: rest, id =>
      if hasId id d then (rest, 1)
      else
        let r := deleteOneById rest id
        (d :: r.1, r.2)

/-- The `$set {status: "Paid", paymentIntentId}` patch of confirm-payment. -/
def setPaid (d : Doc) (pid : Value) : Doc :=
  (d.setField "status" (Value.vStr "Paid")).setField "paymentIntentId" pid

/-- `parcelCollection.updateOne({_id}, {$set: {status: "Paid", paymentIntentId}})`:
patch the first matching document; also return `matchedCount`. -/
def updateOneSetPaid : List Doc → String → Value → List Doc × Nat
  | [], _, _ => ([], 0)
  | d :: rest, id, pid =>
      if hasId id d then (setPaid d pid :: rest, 1)
      else
        let r := updateOneSetPaid rest id pid
        (d :: r.1, r.2)

/-- The store's `_id` uniqueness invariant for a collection. -/
def idsDistinct (ps : List Doc) : Prop :=
  List.Pairwise (fun a b : Doc => a.getField "_id" ≠ b.getField "_id") ps

theorem hasId_setPaid (id : String) (d : Doc) (pid : Value) :
    hasId id (setPaid d pid) = hasId id d := by
  have h1 : ("_id" : String) ≠ "paymentIntentId" := by decide
  have h2 : ("_id" : String) ≠ "status" := by decide
  simp [hasId, setPaid, getField_setField_ne _ h1, getField_setField_ne _ h2]

theorem deleteOne_of_not_any (ps : List Doc) (id : String)
    (h : ps.any (hasId id) = false) : deleteOneById ps id = (ps, 0) := by
  induction ps with
  | nil => simp [deleteOneById]
  | cons d rest ih =>
      simp only [List.any_cons, Bool.or_eq_false_iff] at h
      simp [deleteOneById, h.1, ih h.2]

theorem deleteOne_count_of_any (ps : List Doc) (id : String)
    (h : ps.any (hasId id) = true) : (deleteOneById ps id).2 = 1 := by
  induction ps with
  | nil => simp at h
  | cons d rest ih =>
      by_cases hd : hasId id d
      · simp [deleteOneById, hd]
      · simp only [List.any_cons, hd, Bool.false_or] at h
        simp [deleteOneById, hd, ih h]

theorem findOne_deleteOne (ps : List Doc) (id : String) (hnd : idsDistinct ps) :
    findOneById (deleteOneById ps id).1 id = none := by
  induction ps with
  | nil => simp [deleteOneById, findOneById]
  | cons d rest ih =>
      rw [idsDistinct, List.pairwise_cons] at hnd
      by_cases hd : hasId id d
      · -- head removed; uniqueness rules out a second match in the tail
        simp only [deleteOneById, hd, if_pos]
        rw [findOneById, List.find?_eq_none]
        intro x hx
        have hdx := hnd.1 x hx
        simp only [hasId, decide_eq_true_eq] at hd ⊢
        intro hxi
        exact hdx (hd.trans hxi.symm)
      · simp only [deleteOneById, hd, if_neg, Bool.false_eq_true, not_false_iff]
        rw [findOneById, List.find?_cons_of_neg _ (by simp [hd])]
        exact ih hnd.2

theorem updateOne_of_not_any (ps : List Doc) (id : String) (pid : Value)
    (h : ps.any (hasId id) = false) : updateOneSetPaid ps id pid = (ps, 0) := by
  induction ps with
  | nil => simp [updateOneSetPaid]
  | cons d rest ih =>
      simp only [List.any_cons, Bool.or_eq_false_iff] at h
      simp [updateOneSetPaid, h.1, ih h.2]

theorem updateOne_count_of_any (ps : List Doc) (id : String) (pid : Value)
    (h : ps.any (hasId id) = true) : (updateOneSetPaid ps id pid).2 = 1 := by
  induction ps with
  | nil => simp at h
  | cons d rest ih =>
      by_cases hd : hasId id d
      · simp [updateOneSetPaid, hd]
      · simp only [List.any_cons, hd, Bool.false_or] at h
        simp [updateOneSetPaid, hd, ih h]

theorem any_updateOne (ps : List Doc) (id : String) (pid : Value) :
    (updateOneSetPaid ps id pid).1.any (hasId id) = ps.any (hasId id) := by
  induction ps with
  | nil => simp [updateOneSetPaid]
  | cons d rest ih =>
      by_cases hd : hasId id d
      · simp [updateOneSetPaid, hd, hasId_setPaid]
      · simp [updateOneSetPaid, hd, ih]

theorem findOne_updateOne (ps : List Doc) (id : String) (pid : Value)
    (h : ps.any (hasId id) = true) :
    ∃ d : Doc, findOneById (updateOneSetPaid ps id pid).1 id = some d ∧
      d.getField "status" = some (Value.vStr "Paid") ∧
      d.getField "paymentIntentId" = some pid := by
  induction ps with
  | nil => simp at h
  | cons d rest ih =>
      by_cases hd : hasId id d
      · refine ⟨setPaid d pid, ?_, ?_, ?_⟩
        · simp only [updateOneSetPaid, hd, if_pos, findOneById]
          exact List.find?_cons_of_pos _ (by rw [hasId_setPaid]; exact hd)
        · have h2 : ("status" : String) ≠ "paymentIntentId" := by decide
          simp [setPaid, getField_setField_ne _ h2, getField_setField_self]
        · simp [setPaid, getField_setField_self]
      · simp only [List.any_cons, hd, Bool.false_or] at h
        obtain ⟨d0, hfind, hst, hpi⟩ := ih h
        refine ⟨d0, ?_, hst, hpi⟩
        simp only [updateOneSetPaid, hd, Bool.false_eq_true, if_neg, not_false_iff]
        rw [findOneById, List.find?_cons_of_neg _ (by simp [hd])]
        exact hfind

/-- Sort key of `.sort({createdAt: -1})`. -/
def createdAtOf (d : Doc) : Nat :=
  match d.getField "createdAt" with
  | some (Value.vDate t) => t
  | _ => 0

/-- Descending order on `createdAt` (newest first). -/
def byCreatedAtDesc (a b : Doc) : Prop := createdAtOf b ≤ createdAtOf a

instance : DecidableRel byCreatedAtDesc := fun a b =>
  Nat.decLe (createdAtOf b) (createdAtOf a)

instance : IsTotal Doc byCreatedAtDesc :=
  ⟨fun a b => Nat.le_total (createdAtOf b) (createdAtOf a)⟩

instance : IsTrans Doc byCreatedAtDesc :=
  ⟨fun _ _ _ h1 h2 => Nat.le_trans h2 h1⟩

/-- A document of the `payments` collection, as built by confirm-payment
(`paymentData` plus the store-assigned `_id`). -/
structure Payment where
  oid : String
  parcelId : String
  createdBy : Value
  amount : Value
  paymentIntentId : Value
  status : String
  createdAt : Nat
  paid_at : Nat
  deriving DecidableEq, Repr

/-- The database state: the two declared collections. -/
structure DB where
  parcels : List Doc
  payments : List Payment
  deriving DecidableEq, Repr

/-- Store operations a handler may perform, recorded as a trace. -/
inductive StoreOp where
  | findParcels
  | findOneParcel (id : String)
  | insertParcel
  | updateParcel (id : String)
  | deleteParcel (id : String)
  | insertPayment
  | insertTracking
  deriving DecidableEq, Repr

/-- `GET /parcels`: optional `email` query parameter; a present-but-empty
email is falsy in JS, so the filter is only applied to a non-empty email.
Results are sorted by `createdAt` descending. -/
def hasCreatedBy (e : String) (d : Doc) : Bool :=
  decide (d.getField "createdBy" = some (Value.vStr e))

def listParcels (db : DB) (email : Option String) : List Doc :=
  let q : Doc → Bool :=
    match email with
    | some e => if e.isEmpty then (fun _ => true) else hasCreatedBy e
    | none => fun _ => true
  List.insertionSort byCreatedAtDesc (db.parcels.filter q)

/-- Result of `GET /parcels/:id`: HTTP status, optional body, store-op trace. -/
structure GetParcelResult where
  status : Nat
  body : Option Doc
  ops : List StoreOp
  deriving DecidableEq, Repr

/-- `GET /parcels/:id` handler. -/
def getParcelById (db : DB) (id : String) : GetParcelResult :=
  if isValidObjectId id then
    match findOneById db.parcels id with
    | none => ⟨404, none, [StoreOp.findOneParcel id]⟩
    | some p => ⟨200, some p, [StoreOp.findOneParcel id]⟩
  else ⟨400, none, []⟩

/-- `insertedId` of `insertOne`: the document's own `_id` when present,
otherwise a freshly generated ObjectId. -/
def insertedIdOf (d : Doc) (fresh : String) : Value :=
  match d.getField "_id" with
  | some v => v
  | none => Value.vOid fresh

/-- Result of `POST /parcels`. -/
structure CreateParcelResult where
  status : Nat
  body : Doc
  db : DB
  deriving DecidableEq, Repr

/-- `POST /parcels` handler.  `now` is the clock reading for `new Date()`;
`trackingOid` is the ObjectId generated for `trackingId`; `freshId` is the
ObjectId the store would assign to a document without `_id`. -/
def createParcel (db : DB) (parcelData : Doc) (now : Nat)
    (trackingOid freshId : String) : CreateParcelResult :=
  let d1 := parcelData.setField "status" (Value.vStr "Pending")
  let d2 := d1.setField "trackingId" (Value.vStr trackingOid)
  let d3 := d2.setField "createdAt" (Value.vDate now)
  let stored := d3.setField "_id" (insertedIdOf d3 freshId)
  ⟨201, stored, ⟨db.parcels ++ [stored], db.payments⟩⟩

/-- Result of `DELETE /parcels/:id`. -/
structure DeleteParcelResult where
  status : Nat
  db : DB
  ops : List StoreOp
  deriving DecidableEq, Repr

/-- `DELETE /parcels/:id` handler. -/
def deleteParcel (db : DB) (id : String) : DeleteParcelResult :=
  if isValidObjectId id then
    let r := deleteOneById db.parcels id
    if r.2 = 0 then ⟨404, ⟨r.1, db.payments⟩, [StoreOp.deleteParcel id]⟩
    else ⟨200, ⟨r.1, db.payments⟩, [StoreOp.deleteParcel id]⟩
  else ⟨400, db, []⟩

/-- Result of `POST /confirm-payment`. -/
structure ConfirmPaymentResult where
  status : Nat
  db : DB
  ops : List StoreOp
  payment : Option Payment
  deriving DecidableEq, Repr

/-- `POST /confirm-payment` handler.  `now` models `new Date()`, `freshId`
the `_id` the store assigns to the inserted payment.  `insertFails` models
the payment insert throwing (caught by the handler's `catch` as a 500) after
the parcel update already committed; there is no compensating write. -/
def confirmPayment (db : DB) (parcelId : String)
    (paymentIntentId amount createdBy : Value) (now : Nat) (freshId : String)
    (insertFails : Bool) : ConfirmPaymentResult :=
  if isValidObjectId parcelId then
    let u := updateOneSetPaid db.parcels parcelId paymentIntentId
    if u.2 = 0 then
      ⟨404, ⟨u.1, db.payments⟩, [StoreOp.updateParcel parcelId], none⟩
    else if insertFails then
      ⟨500, ⟨u.1, db.payments⟩,
        [StoreOp.updateParcel parcelId, StoreOp.insertPayment], none⟩
    else
      let pay : Payment :=
        ⟨freshId, parcelId, createdBy, amount, paymentIntentId, "Succeeded",
          now, now⟩
      ⟨200, ⟨u.1, db.payments ++ [pay]⟩,
        [StoreOp.updateParcel parcelId, StoreOp.insertPayment], some pay⟩
  else ⟨400, db, [], none⟩

/-- Truthiness of an optional string body field, as tested by JS `!x`:
the field must be present and non-empty. -/
def truthy : Option String → Bool
  | none => false
  | some s => !s.isEmpty

/-- Body of `POST /tracking` (`{parcelId, trackingId, status, location?}`). -/
structure TrackingBody where
  parcelId : Option String
  trackingId : Option String
  status : Option String
  location : Option String
  deriving DecidableEq, Repr

/-- Modelled from the spec: a document of the `trackingUpdates` collection.
The source references `trackingCollection` without ever declaring it; the
spec directs implementers to treat it as a third collection
`trackingUpdates` keyed by `parcelId`.  Fields follow the `trackingData`
object built by the handler. -/
structure TrackingDoc where
  parcelId : String
  trackingId : String
  status : String
  location : String
  updatedAt : Nat
  deriving DecidableEq, Repr

/-- Result of `POST /tracking`. -/
structure TrackingResult where
  status : Nat
  tracking : List TrackingDoc
  ops : List StoreOp
  deriving DecidableEq, Repr

/-- `location || "Unknown"`: the location default of `POST /tracking`. -/
def locationOrUnknown : Option String → String
  | some l => if l.isEmpty then "Unknown" else l
  | none => "Unknown"

/-- `POST /tracking` handler.  The required-field check uses JS truthiness.
After it, `new ObjectId(parcelId)` throws on a malformed id, caught by the
handler's `catch` as a 500 (the route performs no up-front
`ObjectId.isValid` check).  The successful insert goes to the spec-modelled
`trackingUpdates` collection. -/
def postTracking (tracking : List TrackingDoc) (body : TrackingBody)
    (now : Nat) : TrackingResult :=
  if truthy body.parcelId && truthy body.trackingId && truthy body.status then
    let pid := body.parcelId.getD ""
    if isValidObjectId pid then
      ⟨201,
        tracking ++
          [⟨pid, body.trackingId.getD "", body.status.getD "",
            locationOrUnknown body.location, now⟩],
        [StoreOp.insertTracking]⟩
    else ⟨500, tracking, []⟩
  else ⟨400, tracking, []⟩

/-- The request sent to `stripe.paymentIntents.create`. -/
structure StripeRequest where
  amount : Option Value
  currency : String
  payment_method_types : List String
  deriving DecidableEq, Repr

/-- Outcome of the external Payment Service call. -/
inductive StripeOutcome where
  | success (client_secret : String)
  | failure (message : String)
  deriving DecidableEq, Repr

/-- Result of `POST /create-payment-intent`. -/
structure IntentResult where
  status : Nat
  clientSecret : Option String
  error : Option String
  deriving DecidableEq, Repr

/-- `POST /create-payment-intent` handler: passes the caller-supplied
`amountInCents` through unvalidated, fixes `currency` to `"usd"` and
`payment_method_types` to `["card"]`.  Returns the request actually sent to
the Payment Service together with the HTTP result. -/
def createPaymentIntent (amountInCents : Option Value)
    (service : StripeRequest → StripeOutcome) : StripeRequest × IntentResult :=
  let req : StripeRequest := ⟨amountInCents, "usd", ["card"]⟩
  match service req with
  | StripeOutcome.success s => (req, ⟨200, some s, none⟩)
  | StripeOutcome.failure m => (req, ⟨500, none, some m⟩)

/-! Concrete fixtures used by witnesses and counterexamples. -/

def oidA : String := "aaaaaaaaaaaaaaaaaaaaaaaa"

def oidB : String := "bbbbbbbbbbbbbbbbbbbbbbbb"

def oidC : String := "cccccccccccccccccccccccc"

def parcelA : Doc :=
  [("_id", Value.vOid oidA), ("createdBy", Value.vStr "a@b.com"),
   ("createdAt", Value.vDate 5)]

def dbA : DB := ⟨[parcelA], []⟩

/-- Claim C6: on `GET /parcels/:id`, a syntactically invalid identifier yields
400 with no store call; a well-formed identifier matching no parcel yields
404; a well-formed identifier matching a parcel yields that parcel with
200. -/
theorem get_parcel_id_validation (db : DB) (id : String) :
    (isValidObjectId id = false → getParcelById db id = ⟨400, none, []⟩) ∧
    (isValidObjectId id = true → findOneById db.parcels id = none →
      getParcelById db id = ⟨404, none, [StoreOp.findOneParcel id]⟩) ∧
    (∀ p : Doc, isValidObjectId id = true →
      findOneById db.parcels id = some p →
      getParcelById db id = ⟨200, some p, [StoreOp.findOneParcel id]⟩) := by
  refine ⟨fun h => ?_, fun h hn => ?_, fun p h hp => ?_⟩
  · simp [getParcelById, h]
  · simp [getParcelById, h, hn]
  · simp [getParcelById, h, hp]

/-- Witness for C6: all three branches at concrete inputs. -/
theorem get_parcel_id_validation_w :
    getParcelById dbA "zzz" = ⟨400, none, []⟩ ∧
    getParcelById dbA oidB = ⟨404, none, [StoreOp.findOneParcel oidB]⟩ ∧
    getParcelById dbA oidA = ⟨200, some parcelA, [StoreOp.findOneParcel oidA]⟩ :=
  ⟨(get_parcel_id_validation dbA "zzz").1 (by decide),
   (get_parcel_id_validation dbA oidB).2.1 (by decide) (by decide),
   (get_parcel_id_validation dbA oidA).2.2 parcelA (by decide) (by decide)⟩

/-- Claim C3: on `POST /confirm-payment`, a malformed `parcelId` yields 400
with no store write (empty trace, state unchanged); a well-formed `parcelId`
matching no parcel yields 404 with the parcels and payments collections
unchanged and no Payment created. -/
theorem confirm_payment_error_cases (db : DB) (pid : String)
    (intent amt cb : Value) (now : Nat) (fresh : String) (fails : Bool) :
    (isValidObjectId pid = false →
      confirmPayment db pid intent amt cb now fresh fails = ⟨400, db, [], none⟩) ∧
    (isValidObjectId pid = true → db.parcels.any (hasId pid) = false →
      confirmPayment db pid intent amt cb now fresh fails =
        ⟨404, db, [StoreOp.updateParcel pid], none⟩) := by
  constructor
  · intro h
    simp [confirmPayment, h]
  · intro h hnone
    have hu := updateOne_of_not_any db.parcels pid intent hnone
    simp [confirmPayment, h, hu]

/-- Witness for C3: both error branches at concrete inputs. -/
theorem confirm_payment_error_cases_w :
    confirmPayment dbA "zzz" (Value.vStr "pi_1") (Value.vNum 500)
        (Value.vStr "a@b.com") 7 oidC false = ⟨400, dbA, [], none⟩ ∧
    confirmPayment dbA oidB (Value.vStr "pi_1") (Value.vNum 500)
        (Value.vStr "a@b.com") 7 oidC false =
      ⟨404, dbA, [StoreOp.updateParcel oidB], none⟩ :=
  ⟨(confirm_payment_error_cases dbA "zzz" (Value.vStr "pi_1") (Value.vNum 500)
      (Value.vStr "a@b.com") 7 oidC false).1 (by decide),
   (confirm_payment_error_cases dbA oidB (Value.vStr "pi_1") (Value.vNum 500)
      (Value.vStr "a@b.com") 7 oidC false).2 (by decide) (by decide)⟩

/-- Claim C7: on `DELETE /parcels/:id`, a malformed identifier yields 400
with no store call; a well-formed identifier matching no parcel yields 404;
deleting an existing parcel (under the store's `_id` uniqueness invariant)
returns 200 and a subsequent `GET /parcels/:id` on the same identifier
yields 404. -/
theorem delete_parcel_behaviour (db : DB) (id : String) :
    (isValidObjectId id = false → deleteParcel db id = ⟨400, db, []⟩) ∧
    (isValidObjectId id = true → db.parcels.any (hasId id) = false →
      deleteParcel db id = ⟨404, db, [StoreOp.deleteParcel id]⟩) ∧
    (isValidObjectId id = true → db.parcels.any (hasId id) = true →
      idsDistinct db.parcels →
      (deleteParcel db id).status = 200 ∧
      getParcelById (deleteParcel db id).db id =
        ⟨404, none, [StoreOp.findOneParcel id]⟩) := by
  refine ⟨fun h => ?_, fun h hn => ?_, fun h hy hnd => ?_⟩
  · simp [deleteParcel, h]
  · have hd := deleteOne_of_not_any db.parcels id hn
    simp [deleteParcel, h, hd]
  · have hc : (deleteOneById db.parcels id).2 = 1 :=
      deleteOne_count_of_any db.parcels id hy
    have hf : findOneById (deleteOneById db.parcels id).1 id = none :=
      findOne_deleteOne db.parcels id hnd
    constructor
    · simp [deleteParcel, h, hc]
    · simp [deleteParcel, getParcelById, h, hc, hf]

/-- Witness for C7: all three branches at concrete inputs. -/
theorem delete_parcel_behaviour_w :
    deleteParcel dbA "zzz" = ⟨400, dbA, []⟩ ∧
    deleteParcel dbA oidB = ⟨404, dbA, [StoreOp.deleteParcel oidB]⟩ ∧
    (deleteParcel dbA oidA).status = 200 ∧
    getParcelById (deleteParcel dbA oidA).db oidA =
      ⟨404, none, [StoreOp.findOneParcel oidA]⟩ :=
  ⟨(delete_parcel_behaviour dbA "zzz").1 (by decide),
   (delete_parcel_behaviour dbA oidB).2.1 (by decide) (by decide),
   (delete_parcel_behaviour dbA oidA).2.2 (by decide) (by decide)
     (by simp [idsDistinct, dbA])⟩

theorem confirmPayment_success_eq (db : DB) (pid : String) (i a c : Value)
    (t : Nat) (f : String) (hv : isValidObjectId pid = true)
    (hex : db.parcels.any (hasId pid) = true) :
    confirmPayment db pid i a c t f false =
      ⟨200,
       ⟨(updateOneSetPaid db.parcels pid i).1,
        db.payments ++ [⟨f, pid, c, a, i, "Succeeded", t, t⟩]⟩,
       [StoreOp.updateParcel pid, StoreOp.insertPayment],
       some ⟨f, pid, c, a, i, "Succeeded", t, t⟩⟩ := by
  have h1 := updateOne_count_of_any db.parcels pid i hex
  simp [confirmPayment, hv, h1]

theorem confirmPayment_fail_eq (db : DB) (pid : String) (i a c : Value)
    (t : Nat) (f : String) (hv : isValidObjectId pid = true)
    (hex : db.parcels.any (hasId pid) = true) :
    confirmPayment db pid i a c t f true =
      ⟨500,
       ⟨(updateOneSetPaid db.parcels pid i).1, db.payments⟩,
       [StoreOp.updateParcel pid, StoreOp.insertPayment], none⟩ := by
  have h1 := updateOne_count_of_any db.parcels pid i hex
  simp [confirmPayment, hv, h1]

/-- Claim C1: on `POST /confirm-payment` with a well-formed `parcelId`
matching an existing parcel, the parcel's status becomes `"Paid"` with the
given `paymentIntentId` attached, and exactly one new Payment with status
`"Succeeded"` referencing the `parcelId` is appended; a second call with the
same `parcelId` appends a second, distinct Payment (no idempotency guard). -/
theorem confirm_payment_paid_and_duplicates (db : DB) (pid : String)
    (i1 a1 c1 i2 a2 c2 : Value) (t1 t2 : Nat) (f1 f2 : String)
    (hv : isValidObjectId pid = true)
    (hex : db.parcels.any (hasId pid) = true)
    (hne : f1 ≠ f2) :
    ∃ pay1 pay2 : Payment,
      (confirmPayment db pid i1 a1 c1 t1 f1 false).status = 200 ∧
      (∃ d : Doc,
        findOneById (confirmPayment db pid i1 a1 c1 t1 f1 false).db.parcels
            pid = some d ∧
        d.getField "status" = some (Value.vStr "Paid") ∧
        d.getField "paymentIntentId" = some i1) ∧
      (confirmPayment db pid i1 a1 c1 t1 f1 false).db.payments =
        db.payments ++ [pay1] ∧
      pay1.parcelId = pid ∧ pay1.status = "Succeeded" ∧
      pay1.paymentIntentId = i1 ∧
      (confirmPayment (confirmPayment db pid i1 a1 c1 t1 f1 false).db pid
          i2 a2 c2 t2 f2 false).db.payments =
        db.payments ++ [pay1, pay2] ∧
      pay2.parcelId = pid ∧ pay2.status = "Succeeded" ∧
      pay1 ≠ pay2 := by
  have hex2 :
      (updateOneSetPaid db.parcels pid i1).1.any (hasId pid) = true := by
    rw [any_updateOne]
    exact hex
  have e1 := confirmPayment_success_eq db pid i1 a1 c1 t1 f1 hv hex
  refine ⟨⟨f1, pid, c1, a1, i1, "Succeeded", t1, t1⟩,
    ⟨f2, pid, c2, a2, i2, "Succeeded", t2, t2⟩, ?_, ?_, ?_, rfl, rfl, rfl,
    ?_, rfl, rfl, ?_⟩
  · rw [e1]
  · rw [e1]
    exact findOne_updateOne db.parcels pid i1 hex
  · rw [e1]
  · rw [e1]
    have e2 := confirmPayment_success_eq
      ⟨(updateOneSetPaid db.parcels pid i1).1,
        db.payments ++ [⟨f1, pid, c1, a1, i1, "Succeeded", t1, t1⟩]⟩
      pid i2 a2 c2 t2 f2 hv hex2
    rw [e2]
    simp
  · intro hcontra
    exact hne (congrArg Payment.oid hcontra)

/-- Witness for C1: two confirmations on the same existing parcel at
concrete inputs. -/
theorem confirm_payment_paid_and_duplicates_w :
    ∃ pay1 pay2 : Payment,
      (confirmPayment dbA oidA (Value.vStr "pi_1") (Value.vNum 500)
          (Value.vStr "a@b.com") 7 oidB false).status = 200 ∧
      (∃ d : Doc,
        findOneById (confirmPayment dbA oidA (Value.vStr "pi_1")
            (Value.vNum 500) (Value.vStr "a@b.com") 7 oidB
            false).db.parcels oidA = some d ∧
        d.getField "status" = some (Value.vStr "Paid") ∧
        d.getField "paymentIntentId" = some (Value.vStr "pi_1")) ∧
      (confirmPayment dbA oidA (Value.vStr "pi_1") (Value.vNum 500)
          (Value.vStr "a@b.com") 7 oidB false).db.payments =
        dbA.payments ++ [pay1] ∧
      pay1.parcelId = oidA ∧ pay1.status = "Succeeded" ∧
      pay1.paymentIntentId = Value.vStr "pi_1" ∧
      (confirmPayment (confirmPayment dbA oidA (Value.vStr "pi_1")
          (Value.vNum 500) (Value.vStr "a@b.com") 7 oidB false).db oidA
          (Value.vStr "pi_2") (Value.vNum 500) (Value.vStr "a@b.com") 9 oidC
          false).db.payments = dbA.payments ++ [pay1, pay2] ∧
      pay2.parcelId = oidA ∧ pay2.status = "Succeeded" ∧
      pay1 ≠ pay2 :=
  confirm_payment_paid_and_duplicates dbA oidA (Value.vStr "pi_1")
    (Value.vNum 500) (Value.vStr "a@b.com") (Value.vStr "pi_2")
    (Value.vNum 500) (Value.vStr "a@b.com") 7 9 oidB oidC (by decide)
    (by decide) (by decide)

/-- Claim C4: when the parcel update succeeds but the payment insert fails,
the response is 500, the parcel is left marked `"Paid"` with the
`paymentIntentId` attached, and no Payment document exists for the call; no
compensating write reverts the parcel. -/
theorem confirm_payment_partial_failure (db : DB) (pid : String)
    (i a c : Value) (t : Nat) (f : String)
    (hv : isValidObjectId pid = true)
    (hex : db.parcels.any (hasId pid) = true) :
    (confirmPayment db pid i a c t f true).status = 500 ∧
    (confirmPayment db pid i a c t f true).db.payments = db.payments ∧
    (∃ d : Doc,
      findOneById (confirmPayment db pid i a c t f true).db.parcels pid =
        some d ∧
      d.getField "status" = some (Value.vStr "Paid") ∧
      d.getField "paymentIntentId" = some i) ∧
    (confirmPayment db pid i a c t f true).payment = none := by
  have e := confirmPayment_fail_eq db pid i a c t f hv hex
  refine ⟨?_, ?_, ?_, ?_⟩
  · rw [e]
  · rw [e]
  · rw [e]
    exact findOne_updateOne db.parcels pid i hex
  · rw [e]

/-- Witness for C4: partial failure on a concrete existing parcel. -/
theorem confirm_payment_partial_failure_w :
    (confirmPayment dbA oidA (Value.vStr "pi_1") (Value.vNum 500)
        (Value.vStr "a@b.com") 7 oidB true).status = 500 ∧
    (confirmPayment dbA oidA (Value.vStr "pi_1") (Value.vNum 500)
        (Value.vStr "a@b.com") 7 oidB true).db.payments = dbA.payments ∧
    (∃ d : Doc,
      findOneById (confirmPayment dbA oidA (Value.vStr "pi_1")
          (Value.vNum 500) (Value.vStr "a@b.com") 7 oidB
          true).db.parcels oidA = some d ∧
      d.getField "status" = some (Value.vStr "Paid") ∧
      d.getField "paymentIntentId" = some (Value.vStr "pi_1")) ∧
    (confirmPayment dbA oidA (Value.vStr "pi_1") (Value.vNum 500)
        (Value.vStr "a@b.com") 7 oidB true).payment = none :=
  confirm_payment_partial_failure dbA oidA (Value.vStr "pi_1")
    (Value.vNum 500) (Value.vStr "a@b.com") 7 oidB (by decide) (by decide)

/-- Claim C2: `POST /parcels` returns (and stores) a parcel whose `status`
is `"Pending"`, whose `trackingId` is the server-generated non-empty
ObjectId string, and whose `createdAt` is the creation time, overriding any
caller-supplied values for those fields; every other caller-supplied field
of the body is preserved unchanged. -/
theorem create_parcel_fields (db : DB) (body : Doc) (now : Nat)
    (tOid fid : String) (hT : isValidObjectId tOid = true) :
    (createParcel db body now tOid fid).status = 201 ∧
    (createParcel db body now tOid fid).body.getField "status" =
      some (Value.vStr "Pending") ∧
    (createParcel db body now tOid fid).body.getField "trackingId" =
      some (Value.vStr tOid) ∧
    tOid ≠ "" ∧
    (createParcel db body now tOid fid).body.getField "createdAt" =
      some (Value.vDate now) ∧
    (∀ (k : String) (v : Value), k ≠ "status" → k ≠ "trackingId" →
      k ≠ "createdAt" → body.getField k = some v →
      (createParcel db body now tOid fid).body.getField k = some v) ∧
    (createParcel db body now tOid fid).db.parcels =
      db.parcels ++ [(createParcel db body now tOid fid).body] ∧
    (createParcel db body now tOid fid).db.payments = db.payments := by
  have hsc : ("status" : String) ≠ "createdAt" := by decide
  have hst : ("status" : String) ≠ "trackingId" := by decide
  have hsi : ("status" : String) ≠ "_id" := by decide
  have htc : ("trackingId" : String) ≠ "createdAt" := by decide
  have hti : ("trackingId" : String) ≠ "_id" := by decide
  have hci : ("createdAt" : String) ≠ "_id" := by decide
  refine ⟨rfl, ?_, ?_, valid_oid_ne_empty hT, ?_, ?_, rfl, rfl⟩
  · rw [createParcel]
    simp only
    rw [getField_setField_ne _ hsi, getField_setField_ne _ hsc,
      getField_setField_ne _ hst, getField_setField_self]
  · rw [createParcel]
    simp only
    rw [getField_setField_ne _ hti, getField_setField_ne _ htc,
      getField_setField_self]
  · rw [createParcel]
    simp only
    rw [getField_setField_ne _ hci, getField_setField_self]
  · intro k v hk1 hk2 hk3 hb
    rw [createParcel]
    simp only
    by_cases hid : k = "_id"
    · subst hid
      have h3 :
          (((body.setField "status" (Value.vStr "Pending")).setField
            "trackingId" (Value.vStr tOid)).setField "createdAt"
            (Value.vDate now)).getField "_id" = some v := by
        rw [getField_setField_ne _ (by decide : ("_id" : String) ≠ "createdAt"),
          getField_setField_ne _ (by decide : ("_id" : String) ≠ "trackingId"),
          getField_setField_ne _ (by decide : ("_id" : String) ≠ "status")]
        exact hb
      rw [insertedIdOf, h3, getField_setField_self]
    · rw [getField_setField_ne _ hid, getField_setField_ne _ hk3,
        getField_setField_ne _ hk2, getField_setField_ne _ hk1]
      exact hb

/-- Witness for C2: a concrete creation with a caller-supplied `status`
(overridden) and a shipment field (preserved). -/
theorem create_parcel_fields_w :
    ("destination" : String) ≠ "status" ∧
    ("destination" : String) ≠ "trackingId" ∧
    ("destination" : String) ≠ "createdAt" ∧
    Doc.getField
        [("destination", Value.vStr "X"), ("status", Value.vStr "Hacked")]
        "destination" = some (Value.vStr "X") ∧
    ((createParcel dbA
        [("destination", Value.vStr "X"), ("status", Value.vStr "Hacked")]
        11 oidB oidC).status = 201 ∧
      (createParcel dbA
        [("destination", Value.vStr "X"), ("status", Value.vStr "Hacked")]
        11 oidB oidC).body.getField "status" = some (Value.vStr "Pending") ∧
      (createParcel dbA
        [("destination", Value.vStr "X"), ("status", Value.vStr "Hacked")]
        11 oidB oidC).body.getField "trackingId" =
        some (Value.vStr oidB) ∧
      oidB ≠ "" ∧
      (createParcel dbA
        [("destination", Value.vStr "X"), ("status", Value.vStr "Hacked")]
        11 oidB oidC).body.getField "createdAt" =
        some (Value.vDate 11)) ∧
    (createParcel dbA
        [("destination", Value.vStr "X"), ("status", Value.vStr "Hacked")]
        11 oidB oidC).body.getField "destination" =
      some (Value.vStr "X") := by
  have h := create_parcel_fields dbA
    [("destination", Value.vStr "X"), ("status", Value.vStr "Hacked")]
    11 oidB oidC (by decide)
  refine ⟨by decide, by decide, by decide, by decide,
    ⟨h.1, h.2.1, h.2.2.1, h.2.2.2.1, h.2.2.2.2.1⟩, ?_⟩
  exact h.2.2.2.2.2.1 "destination" (Value.vStr "X") (by decide) (by decide)
    (by decide) (by decide)

/-- Counterexample to Claim C5 as stated: with the email query parameter
present but empty (`GET /parcels?email=`), the JS truthiness check skips the
filter, so the response contains a parcel whose `createdBy` is not the
supplied email. -/
theorem list_parcels_empty_email_cex :
    parcelA ∈ listParcels dbA (some "") ∧
    Doc.getField parcelA "createdBy" ≠ some (Value.vStr "") := by
  constructor
  · decide
  · decide

/-- Claim C5 (amended): with a non-empty `email` query parameter, the
response is exactly the parcels whose `createdBy` equals that email, ordered
by `createdAt` descending; with no (or an empty) `email` parameter it is all
parcels in the same order. -/
theorem list_parcels_filter_and_order (db : DB) (email : String)
    (h : email ≠ "") :
    (∀ d ∈ listParcels db (some email),
      Doc.getField d "createdBy" = some (Value.vStr email)) ∧
    (listParcels db (some email)).Perm
      (db.parcels.filter (hasCreatedBy email)) ∧
    List.Sorted byCreatedAtDesc (listParcels db (some email)) ∧
    (listParcels db none).Perm db.parcels ∧
    List.Sorted byCreatedAtDesc (listParcels db none) ∧
    listParcels db (some "") = listParcels db none := by
  have hne : email.isEmpty = false := by
    rw [Bool.eq_false_iff]
    intro he
    exact h ((String.isEmpty_iff email).mp he)
  have hsome : listParcels db (some email) =
      List.insertionSort byCreatedAtDesc
        (db.parcels.filter (hasCreatedBy email)) := by
    simp [listParcels, hne]
  refine ⟨?_, ?_, ?_, ?_, ?_, ?_⟩
  · intro d hd
    rw [hsome] at hd
    rw [List.mem_insertionSort] at hd
    have := List.of_mem_filter hd
    simpa [hasCreatedBy] using this
  · rw [hsome]
    exact List.perm_insertionSort _ _
  · rw [hsome]
    exact List.sorted_insertionSort _ _
  · have : listParcels db none =
        List.insertionSort byCreatedAtDesc db.parcels := by
      simp [listParcels]
    rw [this]
    exact List.perm_insertionSort _ _
  · exact List.sorted_insertionSort _ _
  · simp [listParcels, String.isEmpty_iff]

/-- Witness for C5 (amended): a concrete non-empty email. -/
theorem list_parcels_filter_and_order_w :
    (∀ d ∈ listParcels dbA (some "a@b.com"),
      Doc.getField d "createdBy" = some (Value.vStr "a@b.com")) ∧
    (listParcels dbA (some "a@b.com")).Perm
      (dbA.parcels.filter (hasCreatedBy "a@b.com")) ∧
    List.Sorted byCreatedAtDesc (listParcels dbA (some "a@b.com")) ∧
    (listParcels dbA none).Perm dbA.parcels ∧
    List.Sorted byCreatedAtDesc (listParcels dbA none) ∧
    listParcels dbA (some "") = listParcels dbA none :=
  list_parcels_filter_and_order dbA "a@b.com" (by decide)

/-- Counterexample to Claim C8 as stated: a tracking body containing all
three required fields but a `parcelId` that is not a valid ObjectId is
answered with 500 and inserts nothing, not 201. -/
theorem post_tracking_invalid_id_cex :
    (postTracking [] ⟨some "not-an-oid", some "TRK1", some "Pending", none⟩
        0).status = 500 ∧
    (postTracking [] ⟨some "not-an-oid", some "TRK1", some "Pending", none⟩
        0).tracking = [] := by
  constructor
  · decide
  · decide

/-- Claim C8 (amended): a tracking request whose body contains non-empty
`parcelId`, `trackingId` and `status`, with `parcelId` additionally a
syntactically valid store identifier, appends one tracking-update record
(with `location` defaulting to `"Unknown"` when absent or empty) to the
spec-modelled `trackingUpdates` collection and returns 201; when any of the
three required fields is missing (or empty, which JS truthiness treats the
same), the response is 400 and no record is created. -/
theorem post_tracking_contract (tr : List TrackingDoc) (body : TrackingBody)
    (now : Nat) :
    (∀ pid : String, body.parcelId = some pid →
      isValidObjectId pid = true → truthy body.trackingId = true →
      truthy body.status = true →
      postTracking tr body now =
        ⟨201,
          tr ++ [⟨pid, body.trackingId.getD "", body.status.getD "",
            locationOrUnknown body.location, now⟩],
          [StoreOp.insertTracking]⟩) ∧
    ((truthy body.parcelId && truthy body.trackingId &&
        truthy body.status) = false →
      postTracking tr body now = ⟨400, tr, []⟩) := by
  constructor
  · intro pid hpid hvalid htrk hst
    have hpt : truthy body.parcelId = true := by
      rw [hpid]
      simp only [truthy, Bool.not_eq_true']
      rw [Bool.eq_false_iff]
      intro he
      exact valid_oid_ne_empty hvalid ((String.isEmpty_iff pid).mp he)
    rw [postTracking, hpid] at *
    simp [hpt, htrk, hst, hvalid]
  · intro h
    simp [postTracking, h]

/-- Witness for C8 (amended): both branches at concrete bodies. -/
theorem post_tracking_contract_w :
    postTracking [] ⟨some oidA, some "TRK1", some "In Transit", none⟩ 3 =
      ⟨201, [⟨oidA, "TRK1", "In Transit", "Unknown", 3⟩],
        [StoreOp.insertTracking]⟩ ∧
    postTracking [] ⟨some oidA, none, some "In Transit", some "Dhaka"⟩ 3 =
      ⟨400, [], []⟩ :=
  ⟨(post_tracking_contract [] ⟨some oidA, some "TRK1", some "In Transit",
      none⟩ 3).1 oidA rfl (by decide) (by decide) (by decide),
   (post_tracking_contract [] ⟨some oidA, none, some "In Transit",
      some "Dhaka"⟩ 3).2 (by decide)⟩

/-- Claim C10: a tracking request with all three required fields present but
a `parcelId` that is not a syntactically valid store identifier is answered
with 500 (the ObjectId constructor throws inside the handler), not 400, and
nothing is inserted; the parcel routes' validate-before-store rule is absent
here. -/
theorem post_tracking_invalid_id_500 (tr : List TrackingDoc)
    (body : TrackingBody) (now : Nat)
    (h : (truthy body.parcelId && truthy body.trackingId &&
      truthy body.status) = true)
    (hbad : isValidObjectId (body.parcelId.getD "") = false) :
    postTracking tr body now = ⟨500, tr, []⟩ ∧
    (postTracking tr body now).status ≠ 400 := by
  have he : postTracking tr body now = ⟨500, tr, []⟩ := by
    simp [postTracking, h, hbad]
  refine ⟨he, ?_⟩
  rw [he]
  simp

/-- Witness for C10: a concrete malformed `parcelId` with all required
fields present. -/
theorem post_tracking_invalid_id_500_w :
    postTracking [] ⟨some "short", some "TRK1", some "Pending", none⟩ 3 =
      ⟨500, [], []⟩ ∧
    (postTracking [] ⟨some "short", some "TRK1", some "Pending", none⟩
      3).status ≠ 400 :=
  post_tracking_invalid_id_500 [] ⟨some "short", some "TRK1", some "Pending",
    none⟩ 3 (by decide) (by decide)

/-- Claim C9: `POST /create-payment-intent` sends the caller-supplied
`amountInCents` with currency fixed to `"usd"` and payment methods fixed to
`["card"]`; on service success (whose client secret is non-empty, a Payment
Service guarantee) the response is 200 with that `clientSecret`; on service
failure the response is 500 carrying the service's error message
verbatim. -/
theorem create_payment_intent_contract (amt : Option Value)
    (service : StripeRequest → StripeOutcome) :
    (createPaymentIntent amt service).1 =
      ⟨amt, "usd", ["card"]⟩ ∧
    (∀ s : String,
      service ⟨amt, "usd", ["card"]⟩ = StripeOutcome.success s → s ≠ "" →
      (createPaymentIntent amt service).2 = ⟨200, some s, none⟩ ∧
      (createPaymentIntent amt service).2.clientSecret ≠ some "") ∧
    (∀ m : String,
      service ⟨amt, "usd", ["card"]⟩ = StripeOutcome.failure m →
      (createPaymentIntent amt service).2 = ⟨500, none, some m⟩) := by
  refine ⟨?_, ?_, ?_⟩
  · rw [createPaymentIntent]
    cases service ⟨amt, "usd", ["card"]⟩ <;> rfl
  · intro s hs hne
    have h2 : (createPaymentIntent amt service).2 = ⟨200, some s, none⟩ := by
      rw [createPaymentIntent]
      simp only [hs]
    refine ⟨h2, ?_⟩
    rw [h2]
    simp [hne]
  · intro m hm
    rw [createPaymentIntent]
    simp only [hm]

/-- Witness for C9: a concrete succeeding service and a concrete failing
service. -/
theorem create_payment_intent_contract_w :
    (createPaymentIntent (some (Value.vNum 500))
        (fun _ => StripeOutcome.success "cs_test_1")).1 =
      ⟨some (Value.vNum 500), "usd", ["card"]⟩ ∧
    (createPaymentIntent (some (Value.vNum 500))
        (fun _ => StripeOutcome.success "cs_test_1")).2 =
      ⟨200, some "cs_test_1", none⟩ ∧
    (createPaymentIntent (some (Value.vNum 500))
        (fun _ => StripeOutcome.failure "Amount must be at least 50 cents")).2 =
      ⟨500, none, some "Amount must be at least 50 cents"⟩ :=
  ⟨(create_payment_intent_contract (some (Value.vNum 500))
      (fun _ => StripeOutcome.success "cs_test_1")).1,
   ((create_payment_intent_contract (some (Value.vNum 500))
      (fun _ => StripeOutcome.success "cs_test_1")).2.1 "cs_test_1" rfl
      (by decide)).1,
   (create_payment_intent_contract (some (Value.vNum 500))
      (fun _ => StripeOutcome.failure "Amount must be at least 50 cents")).2.2
      "Amount must be at least 50 cents" rfl⟩

end TrackMate
